import Mathlib

/-!
Verification of the sourcing-analyst TCO engine and insight generator
(src/app.py), shallowly embedded over ℚ.

Python floats are modelled as exact rationals: the engine performs only
field arithmetic and comparisons, and the spec states that no rounding
happens inside the engine (rounding/formatting is a presentation concern),
so the payloads of all messages are kept as their exact numeric values.
The text messages produced by the insight generator always have a fixed
template and a numeric payload; they are modelled as tagged values carrying
that payload (the f-string currency formatting is presentation-layer).
-/

namespace AppleSourcing

/-- The cost-breakdown dictionary returned by `calculate_tco`
(src/app.py lines 49-56), one field per dict key. -/
structure CostBreakdown where
  fobPrice : ℚ
  freight : ℚ
  baseDuty : ℚ
  section301Penalty : ℚ
  inventoryCost : ℚ
  totalTCO : ℚ
deriving Repr, DecidableEq

/-- `calculate_tco` (src/app.py lines 29-56).  The `country_type` string is
compared against the labels "Mexico" (the zero-duty preferential class) and
"China" (the Section-301 class); every other label falls through to the
`else` branch (standard MFN: full base duty, no 301 tariff). -/
def calculate_tco (fob_price freight lead_time_weeks interest_rate base_duty section_301 : ℚ)
    (country_type : String) : CostBreakdown :=
  let duties : ℚ × ℚ :=
    if country_type = "Mexico" then
      (0, 0)
    else if country_type = "China" then
      (base_duty, section_301)
    else
      (base_duty, 0)
  let applied_duty := duties.1
  let tariff_301 := duties.2
  let cost_duty := fob_price * applied_duty
  let cost_301 := fob_price * tariff_301
  let cost_inventory := fob_price * (interest_rate / 52) * lead_time_weeks
  let total_landed_cost := fob_price + freight + cost_duty + cost_301 + cost_inventory
  { fobPrice := fob_price
    freight := freight
    baseDuty := cost_duty
    section301Penalty := cost_301
    inventoryCost := cost_inventory
    totalTCO := total_landed_cost }

/-- The verdict line of `generate_ai_insight` (src/app.py lines 64-68):
either "DIVERSIFY to {alt_origin}" or "REMAIN in China". -/
inductive Verdict where
  | diversify (alt_origin : String)
  | remain
deriving Repr, DecidableEq

/-- The reason line of `generate_ai_insight` (src/app.py lines 66, 69):
a net saving of `amount`, or a cost increase of `amount` from moving to
`alt_origin`.  The amount is the exact numeric payload of the message. -/
inductive Reason where
  | netSaving (amount : ℚ)
  | costIncrease (alt_origin : String) (amount : ℚ)
deriving Repr, DecidableEq

/-- The driver messages of `generate_ai_insight` (src/app.py lines 79-100),
one constructor per message template, carrying the numeric payload. -/
inductive Driver where
  | tariffSaves (amount : ℚ)
  | tariffHigher (alt_origin : String) (amount : ℚ)
  | freightIncrease (amount : ℚ)
  | freightDecrease (amount : ℚ)
  | inventoryAdds (amount : ℚ)
  | inventorySaves (amount : ℚ)
  | noSignificant
deriving Repr, DecidableEq

/-- The triple `(verdict, reason, drivers)` returned by
`generate_ai_insight` (src/app.py line 102). -/
structure Insight where
  verdict : Verdict
  reason : Reason
  drivers : List Driver
deriving Repr, DecidableEq

/-- `generate_ai_insight` (src/app.py lines 59-102).  Note that `savings`
is a caller-supplied parameter, not computed from the two breakdowns, and
`lead_time_diff` is accepted but never used, exactly as in the source. -/
def generate_ai_insight (res_a res_b : CostBreakdown) (savings : ℚ)
    (alt_origin : String) (lead_time_diff : ℚ) : Insight :=
  let verdict := if savings > 0 then Verdict.diversify alt_origin else Verdict.remain
  let reason := if savings > 0 then Reason.netSaving savings
    else Reason.costIncrease alt_origin (abs savings)
  let drivers : List Driver := []
  let tariff_a := res_a.section301Penalty + res_a.baseDuty
  let tariff_b := res_b.section301Penalty + res_b.baseDuty
  let tariff_gap := tariff_a - tariff_b
  let drivers := if tariff_gap > 1/100 then drivers ++ [Driver.tariffSaves tariff_gap]
    else if tariff_gap < -(1/100) then drivers ++ [Driver.tariffHigher alt_origin (abs tariff_gap)]
    else drivers
  let freight_gap := res_b.freight - res_a.freight
  let drivers := if freight_gap > 1/100 then drivers ++ [Driver.freightIncrease freight_gap]
    else if freight_gap < -(1/100) then drivers ++ [Driver.freightDecrease (abs freight_gap)]
    else drivers
  let inventory_gap := res_b.inventoryCost - res_a.inventoryCost
  let drivers := if inventory_gap > 1/100 then drivers ++ [Driver.inventoryAdds inventory_gap]
    else if inventory_gap < -(1/100) then drivers ++ [Driver.inventorySaves (abs inventory_gap)]
    else drivers
  let drivers := if drivers = [] then drivers ++ [Driver.noSignificant] else drivers
  { verdict := verdict, reason := reason, drivers := drivers }

/-- The call-site computation `savings = res_a['Total TCO'] - res_b['Total TCO']`
(src/app.py line 181). -/
def savings (res_a res_b : CostBreakdown) : ℚ :=
  res_a.totalTCO - res_b.totalTCO

/-- Whether the verdict recommends the alternate origin (the spec's
`favor_alternate` field): true exactly on the "DIVERSIFY" verdict. -/
def favor_alternate (i : Insight) : Bool :=
  match i.verdict with
  | Verdict.diversify _ => true
  | Verdict.remain => false

/-- The signed savings-per-unit payload carried by the reason message
(the spec's `savings_per_unit` field): the saving amount on the saving
branch, the negated increase amount on the cost-increase branch. -/
def savings_per_unit (i : Insight) : ℚ :=
  match i.reason with
  | Reason.netSaving a => a
  | Reason.costIncrease _ a => -a

/-- `estimate_freight` (src/app.py lines 129-131). -/
def estimate_freight (weight : ℚ) (mode : String) : ℚ :=
  if mode = "Air" then weight * (17/2) else weight * (1/2)

/-- The tariff gap of src/app.py lines 75-77:
`(res_a.section_301 + res_a.base_duty) - (res_b.section_301 + res_b.base_duty)`. -/
def tariff_gap (res_a res_b : CostBreakdown) : ℚ :=
  res_a.section301Penalty + res_a.baseDuty - (res_b.section301Penalty + res_b.baseDuty)

/-- The freight gap of src/app.py line 85: `res_b.freight - res_a.freight`. -/
def freight_gap (res_a res_b : CostBreakdown) : ℚ :=
  res_b.freight - res_a.freight

/-- The inventory gap of src/app.py line 92:
`res_b.inventory_cost - res_a.inventory_cost`. -/
def inventory_gap (res_a res_b : CostBreakdown) : ℚ :=
  res_b.inventoryCost - res_a.inventoryCost

/-- The tariff driver rule of spec section 4.2 as a standalone
predicate-to-message rule, for comparison with the implemented cascade. -/
def tariffRule (res_a res_b : CostBreakdown) (alt_origin : String) : List Driver :=
  if tariff_gap res_a res_b > 1/100 then [Driver.tariffSaves (tariff_gap res_a res_b)]
  else if tariff_gap res_a res_b < -(1/100) then
    [Driver.tariffHigher alt_origin (abs (tariff_gap res_a res_b))]
  else []

/-- The freight driver rule of spec section 4.2 as a standalone rule. -/
def freightRule (res_a res_b : CostBreakdown) : List Driver :=
  if freight_gap res_a res_b > 1/100 then [Driver.freightIncrease (freight_gap res_a res_b)]
  else if freight_gap res_a res_b < -(1/100) then
    [Driver.freightDecrease (abs (freight_gap res_a res_b))]
  else []

/-- The inventory driver rule of spec section 4.2 as a standalone rule. -/
def inventoryRule (res_a res_b : CostBreakdown) : List Driver :=
  if inventory_gap res_a res_b > 1/100 then [Driver.inventoryAdds (inventory_gap res_a res_b)]
  else if inventory_gap res_a res_b < -(1/100) then
    [Driver.inventorySaves (abs (inventory_gap res_a res_b))]
  else []

/-- Whether a driver message comes from the tariff rule. -/
def isTariffDriver : Driver → Bool
  | Driver.tariffSaves _ => true
  | Driver.tariffHigher _ _ => true
  | _ => false

/-- Whether a driver message comes from the freight rule. -/
def isFreightDriver : Driver → Bool
  | Driver.freightIncrease _ => true
  | Driver.freightDecrease _ => true
  | _ => false

/-- Whether a driver message comes from the inventory rule. -/
def isInventoryDriver : Driver → Bool
  | Driver.inventoryAdds _ => true
  | Driver.inventorySaves _ => true
  | _ => false

/-- Python `str.replace("%", "")` for the one-character pattern used in
`clean_pct`: remove every percent sign from the character list. -/
def removePct (cs : List Char) : List Char :=
  cs.filter (fun c => c ≠ '%')

/-- Python `str.strip()`: drop leading and trailing whitespace. -/
def stripEnds (cs : List Char) : List Char :=
  ((cs.dropWhile Char.isWhitespace).reverse.dropWhile Char.isWhitespace).reverse

/-- Numeric value of a list of decimal digit characters, most significant
first (the accumulator loop underlying decimal literal parsing). -/
def digitsToNat (cs : List Char) : ℕ :=
  cs.foldl (fun a c => a * 10 + (c.toNat - 48)) 0

/-- Models Python `float()` on plain decimal literals: an optional sign,
then digits with at most one decimal point and at least one digit.  Returns
`none` where `float()` raises `ValueError`; scientific notation and
inf/nan forms are outside the model and also map to `none`. -/
def pyFloat (cs : List Char) : Option ℚ :=
  let signAndRest : ℚ × List Char :=
    match cs with
    | '-' :: t => (-1, t)
    | '+' :: t => (1, t)
    | _ => (1, cs)
  let sign := signAndRest.1
  let rest := signAndRest.2
  let ip := rest.takeWhile Char.isDigit
  let tail := rest.dropWhile Char.isDigit
  match tail with
  | [] => if ip.isEmpty then none else some (sign * (digitsToNat ip : ℚ))
  | '.' :: fp =>
    if fp.all Char.isDigit && !(ip.isEmpty && fp.isEmpty) then
      some (sign * ((digitsToNat ip : ℚ) + (digitsToNat fp : ℚ) / (10 : ℚ) ^ fp.length))
    else none
  | _ => none

/-- A raw cell of the CSV rate columns: pandas hands `clean_pct` either a
string or a number. -/
inductive RawVal where
  | str (s : String)
  | num (q : ℚ)
deriving Repr, DecidableEq

/-- `clean_pct` (src/app.py lines 17-20): a string is stripped of every
percent sign and surrounding whitespace, parsed as a float, and divided by
100; any numeric value passes through `float()` unchanged.  `none` models
`float()` raising on an unparsable string. -/
def clean_pct : RawVal → Option ℚ
  | RawVal.str s => (pyFloat (stripEnds (removePct s.data))).map (fun q => q / 100)
  | RawVal.num q => some q

/-- A concrete cost breakdown (spec section 8, scenario A shape) used to
instantiate hypotheses in witnesses. -/
def sampleBreakdown : CostBreakdown :=
  { fobPrice := 800, freight := 5, baseDuty := 0, section301Penalty := 200,
    inventoryCost := 10, totalTCO := 1015 }

/-- A second concrete cost breakdown with a different total, used to
instantiate hypotheses in witnesses. -/
def sampleBreakdown2 : CostBreakdown :=
  { fobPrice := 800, freight := 6, baseDuty := 40, section301Penalty := 0,
    inventoryCost := 12, totalTCO := 858 }

/-- The all-zero cost breakdown, used as a baseline in boundary checks. -/
def zeroBreakdown : CostBreakdown :=
  { fobPrice := 0, freight := 0, baseDuty := 0, section301Penalty := 0,
    inventoryCost := 0, totalTCO := 0 }

/-- A breakdown whose freight sits exactly on the 0.01 dead-band. -/
def deadbandBreakdown : CostBreakdown :=
  { fobPrice := 0, freight := 1/100, baseDuty := 0, section301Penalty := 0,
    inventoryCost := 0, totalTCO := 1/100 }

/-- A breakdown whose freight exceeds the dead-band by 0.000001
(a gap of 0.010001). -/
def overDeadbandBreakdown : CostBreakdown :=
  { fobPrice := 0, freight := 10001/1000000, baseDuty := 0, section301Penalty := 0,
    inventoryCost := 0, totalTCO := 10001/1000000 }

lemma savings_swap (a b : CostBreakdown) : savings b a = -(savings a b) := by
  simp [savings]

lemma favor_alternate_eq (x y : CostBreakdown) (s : ℚ) (l : String) (d : ℚ) :
    favor_alternate (generate_ai_insight x y s l d) = decide (0 < s) := by
  by_cases h : 0 < s <;> simp [generate_ai_insight, favor_alternate, h]

lemma savings_per_unit_eq (x y : CostBreakdown) (s : ℚ) (l : String) (d : ℚ) :
    savings_per_unit (generate_ai_insight x y s l d) = s := by
  by_cases h : 0 < s
  · simp [generate_ai_insight, savings_per_unit, h]
  · simp [generate_ai_insight, savings_per_unit, h,
      abs_of_nonpos (le_of_not_lt h)]

/-- C1: for all non-negative scenario inputs with rates in [0,1], the total
of the breakdown returned by `calculate_tco` is exactly the sum of the other
five fields, with no rounding anywhere in the engine. -/
theorem total_is_exact_sum (fob fr lt ir bd s3 : ℚ) (ct : String)
    (h1 : 0 ≤ fob) (h2 : 0 ≤ fr) (h3 : 0 ≤ lt)
    (h4 : 0 ≤ ir) (h5 : ir ≤ 1) (h6 : 0 ≤ bd) (h7 : bd ≤ 1)
    (h8 : 0 ≤ s3) (h9 : s3 ≤ 1) :
    (calculate_tco fob fr lt ir bd s3 ct).totalTCO =
      (calculate_tco fob fr lt ir bd s3 ct).fobPrice +
      (calculate_tco fob fr lt ir bd s3 ct).freight +
      (calculate_tco fob fr lt ir bd s3 ct).baseDuty +
      (calculate_tco fob fr lt ir bd s3 ct).section301Penalty +
      (calculate_tco fob fr lt ir bd s3 ct).inventoryCost := rfl

/-- Witness for C1 at spec scenario A. -/
theorem total_is_exact_sum_witness :
    (calculate_tco 800 5 5 (12/100) 0 (25/100) "China").totalTCO =
      (calculate_tco 800 5 5 (12/100) 0 (25/100) "China").fobPrice +
      (calculate_tco 800 5 5 (12/100) 0 (25/100) "China").freight +
      (calculate_tco 800 5 5 (12/100) 0 (25/100) "China").baseDuty +
      (calculate_tco 800 5 5 (12/100) 0 (25/100) "China").section301Penalty +
      (calculate_tco 800 5 5 (12/100) 0 (25/100) "China").inventoryCost :=
  total_is_exact_sum 800 5 5 (12/100) 0 (25/100) "China"
    (by norm_num) (by norm_num) (by norm_num) (by norm_num) (by norm_num)
    (by norm_num) (by norm_num) (by norm_num) (by norm_num)

/-- C2: the preferential class ("Mexico") zeroes both duty and the 301
penalty whatever the rates are; the China class applies both
`fob * base_duty` and `fob * section_301`. -/
theorem duty_policy_classes (fob fr lt ir bd s3 : ℚ) :
    ((calculate_tco fob fr lt ir bd s3 "Mexico").baseDuty = 0 ∧
     (calculate_tco fob fr lt ir bd s3 "Mexico").section301Penalty = 0) ∧
    ((calculate_tco fob fr lt ir bd s3 "China").baseDuty = fob * bd ∧
     (calculate_tco fob fr lt ir bd s3 "China").section301Penalty = fob * s3) := by
  refine ⟨⟨?_, ?_⟩, ⟨?_, ?_⟩⟩ <;> simp [calculate_tco]

/-- C3: any label other than "Mexico" and "China" falls through to the
standard-MFN branch: no 301 penalty, full base duty. -/
theorem unknown_label_standard_mfn (fob fr lt ir bd s3 : ℚ) (ct : String)
    (hm : ct ≠ "Mexico") (hc : ct ≠ "China") :
    (calculate_tco fob fr lt ir bd s3 ct).section301Penalty = 0 ∧
    (calculate_tco fob fr lt ir bd s3 ct).baseDuty = fob * bd := by
  simp [calculate_tco, hm, hc]

/-- Witness for C3 at the unrecognized label "Narnia". -/
theorem unknown_label_standard_mfn_witness :
    (calculate_tco 800 5 5 (12/100) (5/100) (25/100) "Narnia").section301Penalty = 0 ∧
    (calculate_tco 800 5 5 (12/100) (5/100) (25/100) "Narnia").baseDuty = 800 * (5/100) :=
  unknown_label_standard_mfn 800 5 5 (12/100) (5/100) (25/100) "Narnia"
    (by decide) (by decide)

/-- C8: the total is non-negative whenever all six numeric inputs are. -/
theorem total_nonneg (fob fr lt ir bd s3 : ℚ) (ct : String)
    (h1 : 0 ≤ fob) (h2 : 0 ≤ fr) (h3 : 0 ≤ lt)
    (h4 : 0 ≤ ir) (h5 : 0 ≤ bd) (h6 : 0 ≤ s3) :
    0 ≤ (calculate_tco fob fr lt ir bd s3 ct).totalTCO := by
  simp only [calculate_tco]
  split_ifs <;> positivity

/-- Witness for C8 at spec scenario B. -/
theorem total_nonneg_witness :
    0 ≤ (calculate_tco 800 6 7 (12/100) (5/100) (25/100) "Vietnam").totalTCO :=
  total_nonneg 800 6 7 (12/100) (5/100) (25/100) "Vietnam"
    (by norm_num) (by norm_num) (by norm_num) (by norm_num) (by norm_num) (by norm_num)

/-- C4: the verdict favors the alternate exactly when savings is strictly
positive, and on a tie (equal totals, so the call-site savings is zero) the
insight takes the remain branch with a cost-increase reason of amount 0. -/
theorem tie_favors_status_quo (a b : CostBreakdown) (l : String) (d : ℚ) :
    (favor_alternate (generate_ai_insight a b (savings a b) l d) = true ↔
      0 < savings a b) ∧
    (a.totalTCO = b.totalTCO →
      favor_alternate (generate_ai_insight a b (savings a b) l d) = false ∧
      (generate_ai_insight a b (savings a b) l d).reason = Reason.costIncrease l 0) := by
  constructor
  · simp [favor_alternate_eq]
  · intro he
    have h0 : savings a b = 0 := by simp [savings, he]
    rw [h0]
    constructor
    · simp [favor_alternate_eq]
    · simp [generate_ai_insight]

/-- Witness for C4 on a tie between two copies of the same breakdown. -/
theorem tie_favors_status_quo_witness :
    favor_alternate
        (generate_ai_insight sampleBreakdown sampleBreakdown
          (savings sampleBreakdown sampleBreakdown) "Vietnam" 0) = false ∧
    (generate_ai_insight sampleBreakdown sampleBreakdown
        (savings sampleBreakdown sampleBreakdown) "Vietnam" 0).reason =
      Reason.costIncrease "Vietnam" 0 :=
  (tie_favors_status_quo sampleBreakdown sampleBreakdown "Vietnam" 0).2 rfl

/-- C7: with the call-site savings, swapping baseline and challenger
negates the savings-per-unit payload and flips the verdict whenever the
savings is nonzero. -/
theorem swap_flips_insight (a b : CostBreakdown) (l : String) (d : ℚ)
    (h : savings a b ≠ 0) :
    savings_per_unit (generate_ai_insight b a (savings b a) l d) =
      -(savings_per_unit (generate_ai_insight a b (savings a b) l d)) ∧
    favor_alternate (generate_ai_insight b a (savings b a) l d) =
      !(favor_alternate (generate_ai_insight a b (savings a b) l d)) := by
  constructor
  · rw [savings_per_unit_eq, savings_per_unit_eq, savings_swap]
  · rw [favor_alternate_eq, favor_alternate_eq, savings_swap]
    rcases lt_or_gt_of_ne h with hlt | hgt
    · simp [hlt, not_lt.mpr (le_of_lt hlt), neg_pos]
    · simp [hgt, not_lt.mpr (le_of_lt (neg_neg_of_pos hgt)), not_lt.mpr (le_of_lt hgt)]

/-- Witness for C7 on two breakdowns with distinct totals. -/
theorem swap_flips_insight_witness :
    savings_per_unit
        (generate_ai_insight sampleBreakdown2 sampleBreakdown
          (savings sampleBreakdown2 sampleBreakdown) "Vietnam" 0) =
      -(savings_per_unit
          (generate_ai_insight sampleBreakdown sampleBreakdown2
            (savings sampleBreakdown sampleBreakdown2) "Vietnam" 0)) ∧
    favor_alternate
        (generate_ai_insight sampleBreakdown2 sampleBreakdown
          (savings sampleBreakdown2 sampleBreakdown) "Vietnam" 0) =
      !(favor_alternate
          (generate_ai_insight sampleBreakdown sampleBreakdown2
            (savings sampleBreakdown sampleBreakdown2) "Vietnam" 0)) :=
  swap_flips_insight sampleBreakdown sampleBreakdown2 "Vietnam" 0
    (by norm_num [savings, sampleBreakdown, sampleBreakdown2])

/-- C10: the verdict and reason of `generate_ai_insight` depend only on the
caller-supplied savings and the challenger label, never on the two
breakdowns or the lead-time difference; consequently the verdict can
disagree with the breakdowns' totals, as the concrete conjunct shows
(true savings positive, supplied savings negative, verdict remains). -/
theorem verdict_ignores_breakdowns (a b a2 b2 : CostBreakdown) (s : ℚ)
    (l : String) (d d2 : ℚ) :
    ((generate_ai_insight a b s l d).verdict =
        (generate_ai_insight a2 b2 s l d2).verdict ∧
     (generate_ai_insight a b s l d).reason =
        (generate_ai_insight a2 b2 s l d2).reason) ∧
    (favor_alternate
        (generate_ai_insight sampleBreakdown sampleBreakdown2 (-1) "Vietnam" 0) = false ∧
     0 < savings sampleBreakdown sampleBreakdown2) := by
  refine ⟨⟨rfl, rfl⟩, ?_, ?_⟩
  · simp [favor_alternate_eq]
  · norm_num [savings, sampleBreakdown, sampleBreakdown2]


set_option maxHeartbeats 2000000 in
lemma drivers_decompose (res_a res_b : CostBreakdown) (s : ℚ) (l : String) (d : ℚ) :
    (generate_ai_insight res_a res_b s l d).drivers =
      if tariffRule res_a res_b l ++ freightRule res_a res_b ++ inventoryRule res_a res_b = []
      then [Driver.noSignificant]
      else tariffRule res_a res_b l ++ freightRule res_a res_b ++ inventoryRule res_a res_b := by
  simp only [generate_ai_insight, tariffRule, freightRule, inventoryRule,
    tariff_gap, freight_gap, inventory_gap]
  generalize res_a.section301Penalty + res_a.baseDuty -
    (res_b.section301Penalty + res_b.baseDuty) = tg
  generalize res_b.freight - res_a.freight = fg
  generalize res_b.inventoryCost - res_a.inventoryCost = ig
  by_cases h1 : tg > 1/100 <;> by_cases h2 : tg < -(1/100) <;>
    by_cases h3 : fg > 1/100 <;> by_cases h4 : fg < -(1/100) <;>
    by_cases h5 : ig > 1/100 <;> by_cases h6 : ig < -(1/100) <;>
    simp only [h1, h2, h3, h4, h5, h6] <;> simp


lemma tariffRule_any (a b : CostBreakdown) (l : String) :
    ((tariffRule a b l).any isTariffDriver = true) ↔ 1/100 < |tariff_gap a b| := by
  unfold tariffRule
  split_ifs with h1 h2 <;> simp [isTariffDriver, lt_abs]
  · exact Or.inl (by linarith)
  · exact Or.inr (by linarith)
  · constructor <;> linarith

lemma freightRule_any (a b : CostBreakdown) :
    ((freightRule a b).any isFreightDriver = true) ↔ 1/100 < |freight_gap a b| := by
  unfold freightRule
  split_ifs with h1 h2 <;> simp [isFreightDriver, lt_abs]
  · exact Or.inl (by linarith)
  · exact Or.inr (by linarith)
  · constructor <;> linarith

lemma inventoryRule_any (a b : CostBreakdown) :
    ((inventoryRule a b).any isInventoryDriver = true) ↔ 1/100 < |inventory_gap a b| := by
  unfold inventoryRule
  split_ifs with h1 h2 <;> simp [isInventoryDriver, lt_abs]
  · exact Or.inl (by linarith)
  · exact Or.inr (by linarith)
  · constructor <;> linarith

lemma tariffRule_no_freight (a b : CostBreakdown) (l : String) :
    (tariffRule a b l).any isFreightDriver = false := by
  unfold tariffRule; split_ifs <;> simp [isFreightDriver]

lemma tariffRule_no_inventory (a b : CostBreakdown) (l : String) :
    (tariffRule a b l).any isInventoryDriver = false := by
  unfold tariffRule; split_ifs <;> simp [isInventoryDriver]

lemma freightRule_no_tariff (a b : CostBreakdown) :
    (freightRule a b).any isTariffDriver = false := by
  unfold freightRule; split_ifs <;> simp [isTariffDriver]

lemma freightRule_no_inventory (a b : CostBreakdown) :
    (freightRule a b).any isInventoryDriver = false := by
  unfold freightRule; split_ifs <;> simp [isInventoryDriver]

lemma inventoryRule_no_tariff (a b : CostBreakdown) :
    (inventoryRule a b).any isTariffDriver = false := by
  unfold inventoryRule; split_ifs <;> simp [isTariffDriver]

lemma inventoryRule_no_freight (a b : CostBreakdown) :
    (inventoryRule a b).any isFreightDriver = false := by
  unfold inventoryRule; split_ifs <;> simp [isFreightDriver]

lemma drivers_any_iff (res_a res_b : CostBreakdown) (s : ℚ) (l : String) (d : ℚ)
    (p : Driver → Bool) (hp : p Driver.noSignificant = false) :
    ((generate_ai_insight res_a res_b s l d).drivers.any p = true) ↔
      ((tariffRule res_a res_b l).any p = true ∨
       (freightRule res_a res_b).any p = true ∨
       (inventoryRule res_a res_b).any p = true) := by
  rw [drivers_decompose]
  split_ifs with he
  · rcases List.append_eq_nil.mp he with ⟨hTF, hI⟩
    rcases List.append_eq_nil.mp hTF with ⟨hT, hF⟩
    simp [hT, hF, hI, hp]
  · simp [List.any_append]

/-- C5: each driver rule fires exactly when the corresponding gap strictly
exceeds the 0.01 dead-band in absolute value, so a gap of exactly 0.01
appends no message (concrete conjunct four) while a gap of 0.010001 does
(concrete conjunct five). -/
theorem driver_deadband_strict (a b : CostBreakdown) (s : ℚ) (l : String) (d : ℚ) :
    (((generate_ai_insight a b s l d).drivers.any isTariffDriver = true) ↔
      1/100 < |tariff_gap a b|) ∧
    (((generate_ai_insight a b s l d).drivers.any isFreightDriver = true) ↔
      1/100 < |freight_gap a b|) ∧
    (((generate_ai_insight a b s l d).drivers.any isInventoryDriver = true) ↔
      1/100 < |inventory_gap a b|) ∧
    (generate_ai_insight zeroBreakdown deadbandBreakdown 0 "Vietnam" 0).drivers =
      [Driver.noSignificant] ∧
    (generate_ai_insight zeroBreakdown overDeadbandBreakdown 0 "Vietnam" 0).drivers =
      [Driver.freightIncrease (10001/1000000)] := by
  refine ⟨?_, ?_, ?_, ?_, ?_⟩
  · rw [drivers_any_iff a b s l d isTariffDriver rfl]
    simp only [freightRule_no_tariff, inventoryRule_no_tariff, Bool.false_eq_true,
      or_false, false_or]
    exact tariffRule_any a b l
  · rw [drivers_any_iff a b s l d isFreightDriver rfl]
    simp only [tariffRule_no_freight, inventoryRule_no_freight, Bool.false_eq_true,
      or_false, false_or]
    exact freightRule_any a b
  · rw [drivers_any_iff a b s l d isInventoryDriver rfl]
    simp only [tariffRule_no_inventory, freightRule_no_inventory, Bool.false_eq_true,
      or_false, false_or]
    exact inventoryRule_any a b
  · norm_num [generate_ai_insight, zeroBreakdown, deadbandBreakdown]
  · norm_num [generate_ai_insight, zeroBreakdown, overDeadbandBreakdown]

/-- C6: the drivers list is the concatenation, in the fixed order tariff
then freight then inventory, of the three rules' messages, with exactly the
single fallback entry when none of them triggered. -/
theorem drivers_fixed_order (a b : CostBreakdown) (s : ℚ) (l : String) (d : ℚ) :
    (generate_ai_insight a b s l d).drivers =
      if tariffRule a b l ++ freightRule a b ++ inventoryRule a b = []
      then [Driver.noSignificant]
      else tariffRule a b l ++ freightRule a b ++ inventoryRule a b :=
  drivers_decompose a b s l d


/-- C9: `clean_pct` divides every parsable string input by 100 after
removing percent signs and surrounding whitespace (also when the string
holds no percent sign at all), and returns every numeric input unchanged,
never divided by 100. -/
theorem clean_pct_normalizes (s : String) (q qn : ℚ)
    (h : pyFloat (stripEnds (removePct s.data)) = some q) :
    clean_pct (RawVal.str s) = some (q / 100) ∧
    clean_pct (RawVal.num qn) = some qn := by
  simp [clean_pct, h]


/-- Witness for C9: "7.5" holds no percent sign and still becomes
7.5 / 100 = 0.075, while the numeric input 1/4 passes through unchanged. -/
theorem clean_pct_normalizes_witness :
    clean_pct (RawVal.str "7.5") = some (3/40) ∧
    clean_pct (RawVal.num (1/4)) = some (1/4) := by
  have hs : stripEnds (removePct "7.5".data) = ['7', '.', '5'] := by decide
  have hp : pyFloat (stripEnds (removePct "7.5".data)) = some (15/2) := by
    rw [hs]
    simp +decide [pyFloat, digitsToNat]
    norm_num
  have h := clean_pct_normalizes "7.5" (15/2) (1/4) hp
  refine ⟨?_, h.2⟩
  rw [h.1]
  norm_num

end AppleSourcing
